import Mathlib

/-!
Verification of the onebeam-ai agent-runtime core: the tool registry and
permission checks, the JSON-schema subset validator
(src/core/schema-validator.ts), and the two-phase discussion/execution
orchestrator (src/core/agent-runtime).

The embedding is shallow: TypeScript objects become Lean structures, the
untyped JSON data driving validation becomes the inductive `JSValue`, and
the orchestrator's single external suspension point (the model provider
call) becomes an explicit function argument.  Runtime-irrelevant effects
(wall-clock timestamps, the global log-id counter, the untyped `data`
attachment on log entries, simulated latency) are omitted from `LogEntry`;
everything the claims observe (phase, model, agent, entry type, message)
is kept.  TypeScript's in-place mutation of `ToolCall.status` is rendered
functionally: the updated call lists are returned, matching every
observation the callers make.

The recursive `JSONSchema` type is encoded as a mutual inductive family
(`JSONSchema` / `OptProps` / `Props` / `OptSchema`) instead of nesting
through `Option`/`List`, so that the validator is plain structural
recursion and evaluates inside the kernel; `Props` is the association
list `properties` with `Props.ofList`/`Props.toList` converting to
ordinary lists.
-/

namespace Onebeam

/-- A JavaScript runtime value as seen by the schema validator: the
`data` payload of a `StructuredResult` and tool-call arguments/results.
`null` is kept distinct because the validator checks `value === null`. -/
inductive JSValue where
  | obj (fields : List (String × JSValue))
  | arr (elems : List JSValue)
  | str (s : String)
  | num (n : Int)
  | bool (b : Bool)
  | null

/-- JavaScript's `typeof` on the values above: arrays and `null` both
report `"object"`, exactly as in the runtime (used in error messages). -/
def jsTypeof : JSValue → String
  | .obj _ => "object"
  | .arr _ => "object"
  | .str _ => "string"
  | .num _ => "number"
  | .bool _ => "boolean"
  | .null => "object"

/-- `key in obj` for a modelled JS object. -/
def hasKey (fields : List (String × JSValue)) (k : String) : Bool :=
  fields.any (fun kv => kv.1 == k)

/-- `obj[key]` for a modelled JS object (first binding wins; JS objects
cannot hold duplicate keys). -/
def getKey (fields : List (String × JSValue)) (k : String) : Option JSValue :=
  (fields.find? (fun kv => kv.1 == k)).map (fun kv => kv.2)

mutual
/-- The `JSONSchema` interface of src/core/types.ts: `type` plus the
optional keywords `properties`, `items`, `required`, `enum`,
`description`, `additionalProperties`.  Optional TS fields are optional
here (`none` = the field is absent / `undefined`). -/
inductive JSONSchema where
  | mk (type : String)
       (properties : OptProps)
       (items : OptSchema)
       (required : Option (List String))
       (enum : Option (List String))
       (description : Option String)
       (additionalProperties : Option Bool)

/-- An optional `properties` map. -/
inductive OptProps where
  | none
  | some (ps : Props)

/-- The `properties` record of a schema node: an ordered association
list of property name to sub-schema (`Object.entries` order). -/
inductive Props where
  | nil
  | cons (key : String) (schema : JSONSchema) (rest : Props)

/-- An optional `items` sub-schema. -/
inductive OptSchema where
  | none
  | some (s : JSONSchema)
end

def JSONSchema.type : JSONSchema → String
  | .mk t _ _ _ _ _ _ => t

def JSONSchema.properties : JSONSchema → OptProps
  | .mk _ p _ _ _ _ _ => p

def JSONSchema.items : JSONSchema → OptSchema
  | .mk _ _ i _ _ _ _ => i

def JSONSchema.required : JSONSchema → Option (List String)
  | .mk _ _ _ r _ _ _ => r

def JSONSchema.enum : JSONSchema → Option (List String)
  | .mk _ _ _ _ e _ _ => e

def JSONSchema.additionalProperties : JSONSchema → Option Bool
  | .mk _ _ _ _ _ _ a => a

/-- Build a `properties` map from an ordinary association list. -/
def Props.ofList : List (String × JSONSchema) → Props
  | [] => .nil
  | (k, s) :: rest => .cons k s (Props.ofList rest)

/-- View a `properties` map as an ordinary association list. -/
def Props.toList : Props → List (String × JSONSchema)
  | .nil => []
  | .cons k s rest => (k, s) :: Props.toList rest

/-- `key in s.properties`: whether a property name is declared. -/
def Props.declares : Props → String → Bool
  | .nil, _ => false
  | .cons k _ rest, key => k == key || Props.declares rest key

/-- The `ValidationResult` interface of src/core/types.ts. -/
structure ValidationResult where
  valid : Bool
  errors : List String

mutual
/-- The recursive `validate(value, s, path)` worker of
src/core/schema-validator.ts.  Error strings and their accumulation
order reproduce the source exactly: for objects, required-field errors,
then per-declared-property recursion, then the `additionalProperties`
scan; the unsupported-`type` fall-through produces no errors, as in the
source's if/else chain. -/
def validate : JSValue → JSONSchema → String → List String
  | value, .mk ty props itms req enm _dsc addl, path =>
    if ty == "object" then
      match value with
      | .obj fields =>
        ((req.getD []).filter (fun k => !(hasKey fields k))).map
            (fun k => path ++ "." ++ k ++ ": required field missing")
        ++ (match props with
            | .none => []
            | .some ps => validateProps fields ps path)
        ++ (match addl, props with
            | some false, .some ps =>
              (fields.filter (fun kv => !(Props.declares ps kv.1))).map
                (fun kv => path ++ "." ++ kv.1 ++ ": unexpected property")
            | _, _ => [])
      | v => [path ++ ": expected object, got " ++ jsTypeof v]
    else if ty == "array" then
      match value with
      | .arr elems =>
        match itms with
        | .some its =>
          (elems.enum.map (fun p =>
            validate p.2 its (path ++ "[" ++ toString p.1 ++ "]"))).flatten
        | .none => []
      | v => [path ++ ": expected array, got " ++ jsTypeof v]
    else if ty == "string" then
      match value with
      | .str sv =>
        match enm with
        | some e =>
          if e.contains sv then []
          else [path ++ ": must be one of [" ++ String.intercalate ", " e ++ "]"]
        | none => []
      | v => [path ++ ": expected string, got " ++ jsTypeof v]
    else if ty == "number" then
      match value with
      | .num _ => []
      | v => [path ++ ": expected number, got " ++ jsTypeof v]
    else if ty == "boolean" then
      match value with
      | .bool _ => []
      | v => [path ++ ": expected boolean, got " ++ jsTypeof v]
    else []

/-- The `if (s.properties) for (const [key, propSchema] of
Object.entries(s.properties))` loop of the object branch: recurse into
each declared property that is present on the value. -/
def validateProps : List (String × JSValue) → Props → String → List String
  | _, .nil, _ => []
  | fields, .cons k psch rest, path =>
    (match getKey fields k with
     | some v => validate v psch (path ++ "." ++ k)
     | none => []) ++ validateProps fields rest path
end

/-- `validateAgainstSchema` of src/core/schema-validator.ts: run the
worker at path `$` and report `valid` iff no error accumulated. -/
def validateAgainstSchema (data : JSValue) (schema : JSONSchema) : ValidationResult :=
  let errors := validate data schema "$"
  { valid := errors.isEmpty, errors := errors }

/-- The `ToolDefinition` interface of src/core/types.ts.  `Permission`
is an opaque, equality-compared string token in the spec's data model,
so it is embedded as `String`. -/
structure ToolDefinition where
  name : String
  description : String
  parameters : JSONSchema
  requiredPermissions : List String

/-- `TOOL_REGISTRY`: the static catalogue of the four tools, with their
parameter schemas and required permissions transcribed verbatim. -/
def TOOL_REGISTRY : List ToolDefinition :=
  [ { name := "readTask"
      description := "Read a task by ID. Returns task details including status, assignee, and due date."
      parameters := .mk "object"
        (.some (Props.ofList
          [("taskId", .mk "string" .none .none none none (some "The ID of the task to read") none)]))
        .none (some ["taskId"]) none none none
      requiredPermissions := ["read:tasks"] }
  , { name := "updateTask"
      description := "Update a task\x27s properties such as status, priority, or assignee."
      parameters := .mk "object"
        (.some (Props.ofList
          [ ("taskId", .mk "string" .none .none none none (some "The ID of the task to update") none)
          , ("updates", .mk "object"
              (.some (Props.ofList
                [ ("status", .mk "string" .none .none none (some ["open", "in-progress", "urgent", "done"]) none none)
                , ("priority", .mk "string" .none .none none (some ["low", "medium", "high", "critical"]) none none)
                , ("assignee", .mk "string" .none .none none none none none) ]))
              .none none none none none) ]))
        .none (some ["taskId", "updates"]) none none none
      requiredPermissions := ["write:tasks"] }
  , { name := "createWorkflow"
      description := "Create an automation workflow with trigger and steps."
      parameters := .mk "object"
        (.some (Props.ofList
          [ ("workflow", .mk "object"
              (.some (Props.ofList
                [ ("name", .mk "string" .none .none none none none none)
                , ("trigger", .mk "string" .none .none none none none none)
                , ("steps", .mk "array" .none
                    (.some (.mk "object"
                      (.some (Props.ofList
                        [ ("type", .mk "string" .none .none none (some ["update", "notify", "condition"]) none none)
                        , ("entity", .mk "string" .none .none none none none none)
                        , ("update", .mk "object" .none .none none none none none) ]))
                      .none (some ["type"]) none none none))
                    none none none none) ]))
              .none (some ["name", "trigger", "steps"]) none none none) ]))
        .none (some ["workflow"]) none none none
      requiredPermissions := ["write:workflows"] }
  , { name := "listTasks"
      description := "List all tasks matching optional filter criteria."
      parameters := .mk "object"
        (.some (Props.ofList
          [ ("filter", .mk "object"
              (.some (Props.ofList
                [ ("status", .mk "string" .none .none none none none none)
                , ("priority", .mk "string" .none .none none none none none)
                , ("assignee", .mk "string" .none .none none none none none) ]))
              .none none none none none) ]))
        .none none none none none
      requiredPermissions := ["read:tasks"] } ]

/-- `getPermittedTools(allowedToolNames, agentPermissions)`: the
visibility boundary — registry entries whose name is allow-listed and
whose required permissions are all granted, in registry order. -/
def getPermittedTools (allowedToolNames : List String) (agentPermissions : List String) :
    List ToolDefinition :=
  TOOL_REGISTRY.filter (fun tool =>
    allowedToolNames.contains tool.name &&
    tool.requiredPermissions.all (fun p => agentPermissions.contains p))

/-- `validateToolAccess(toolName, allowedToolNames, agentPermissions)`:
the enforcement boundary.  Returns the blocking message, or `none` when
the call is permitted; messages are transcribed verbatim. -/
def validateToolAccess (toolName : String) (allowedToolNames : List String)
    (agentPermissions : List String) : Option String :=
  if !(allowedToolNames.contains toolName) then
    some ("BLOCKED: Tool \"" ++ toolName ++
      "\" is not in the agent\x27s allowed tools list. This call has been rejected.")
  else
    match TOOL_REGISTRY.find? (fun t => t.name == toolName) with
    | none => some ("BLOCKED: Tool \"" ++ toolName ++ "\" does not exist in the registry.")
    | some tool =>
      let missingPermissions :=
        tool.requiredPermissions.filter (fun p => !(agentPermissions.contains p))
      if missingPermissions.length > 0 then
        some ("BLOCKED: Agent lacks permissions: [" ++
          String.intercalate ", " missingPermissions ++ "]. This call has been rejected.")
      else
        none

/-- `OUTPUT_SCHEMAS`: the named structured-output schemas, keyed by the
schema name an `AgentConfig` references. -/
def OUTPUT_SCHEMAS : List (String × JSONSchema) :=
  [ ("WorkflowDefinition", .mk "object"
      (.some (Props.ofList
        [ ("workflow", .mk "object"
            (.some (Props.ofList
              [ ("name", .mk "string" .none .none none none none none)
              , ("trigger", .mk "string" .none .none none none none none)
              , ("steps", .mk "array" .none
                  (.some (.mk "object"
                    (.some (Props.ofList
                      [ ("type", .mk "string" .none .none none (some ["update", "notify", "condition"]) none none)
                      , ("entity", .mk "string" .none .none none none none none)
                      , ("update", .mk "object" .none .none none none none none) ]))
                    .none (some ["type"]) none none none))
                  none none none none) ]))
            .none (some ["name", "trigger", "steps"]) none none none) ]))
      .none (some ["workflow"]) none none (some false))
  , ("TaskUpdate", .mk "object"
      (.some (Props.ofList
        [ ("taskId", .mk "string" .none .none none none none none)
        , ("updates", .mk "object"
            (.some (Props.ofList
              [ ("status", .mk "string" .none .none none (some ["open", "in-progress", "urgent", "done"]) none none)
              , ("priority", .mk "string" .none .none none (some ["low", "medium", "high", "critical"]) none none) ]))
            .none none none none none) ]))
      .none (some ["taskId", "updates"]) none none (some false))
  , ("TaskList", .mk "object"
      (.some (Props.ofList
        [ ("tasks", .mk "array" .none
            (.some (.mk "object"
              (.some (Props.ofList
                [ ("id", .mk "string" .none .none none none none none)
                , ("title", .mk "string" .none .none none none none none)
                , ("status", .mk "string" .none .none none none none none)
                , ("priority", .mk "string" .none .none none none none none) ]))
              .none (some ["id", "title", "status"]) none none none))
            none none none none) ]))
      .none (some ["tasks"]) none none (some false)) ]

/-- A `ToolCall` status: the four states of the state machine. -/
inductive CallStatus where
  | pending
  | approved
  | rejected
  | executed
deriving DecidableEq, BEq

/-- The `ToolCall` interface of src/core/types.ts. -/
structure ToolCall where
  toolName : String
  arguments : JSValue
  result : Option JSValue
  status : CallStatus

/-- The `StructuredResult` interface of src/core/types.ts. -/
structure StructuredResult where
  success : Bool
  data : JSValue
  toolCalls : List ToolCall
  reasoning : Option String
  rawOutput : Option String

/-- The two phases of a run. -/
inductive Phase where
  | discussion
  | execution
deriving DecidableEq, BEq

/-- The audit-log entry types of src/core/types.ts. -/
inductive LogType where
  | plan
  | tool_call
  | validation
  | execution
  | error
  | blocked
deriving DecidableEq, BEq

/-- A `LogEntry` minus its environment-effect fields: the globally
counted `id` and the wall-clock `timestamp` are dropped, as is the
untyped `data` attachment; phase, model, agent, entry type and message —
everything the spec's audit-trail claims observe — are kept. -/
structure LogEntry where
  phase : Phase
  model : String
  agent : String
  type : LogType
  message : String

/-- `createLog` of src/core/agent-runtime, restricted to the retained
fields. -/
def createLog (phase : Phase) (model : String) (agent : String)
    (type : LogType) (message : String) : LogEntry :=
  { phase := phase, model := model, agent := agent, type := type, message := message }

/-- The `AgentConfig` interface of src/core/types.ts.  `ModelId` is a
string at runtime (TypeScript unions are erased), so `model` is `String`. -/
structure AgentConfig where
  name : String
  model : String
  instructions : String
  allowedTools : List String
  outputSchema : String
  permissions : List String

/-- `AGENT_CONFIGS`: the three pre-configured agents. -/
def AGENT_CONFIGS : List AgentConfig :=
  [ { name := "workflow-agent"
      model := "claude-opus-4.6"
      instructions := "Create and manage automation workflows safely for Onebeam apps. Always produce structured workflow definitions."
      allowedTools := ["readTask", "createWorkflow", "listTasks"]
      outputSchema := "WorkflowDefinition"
      permissions := ["read:tasks", "write:workflows", "read:workflows"] }
  , { name := "task-agent"
      model := "gpt-5.2"
      instructions := "Manage tasks — read, list, and update tasks. Never create workflows or access unauthorized resources."
      allowedTools := ["readTask", "updateTask", "listTasks"]
      outputSchema := "TaskUpdate"
      permissions := ["read:tasks", "write:tasks"] }
  , { name := "readonly-agent"
      model := "gemini-3"
      instructions := "Read-only agent that can only list and read tasks. Cannot modify any data."
      allowedTools := ["readTask", "listTasks"]
      outputSchema := "TaskList"
      permissions := ["read:tasks"] }
  ]

/-- The `AgentRunRequest` interface: agent name, optional model
override, user input. -/
structure AgentRunRequest where
  agent : String
  model : Option String
  input : String

/-- The `AgentRunResult` interface of src/core/agent-runtime. -/
structure AgentRunResult where
  phase : Phase
  result : StructuredResult
  logs : List LogEntry
  validationPassed : Bool
  blockedCalls : List ToolCall
  approvedCalls : List ToolCall

/-- The provider registry of src/core/providers.ts, reduced to what the
orchestrator observes: `getProvider` succeeds exactly on the three
registered model ids and the provider's `displayName` feeds the first
discussion log line.  The provider's `generateStructuredOutput` body is
the external capability (mock in the source) and is passed to
`runDiscussionWith` as a function argument. -/
def getProviderDisplayName : String → Option String := fun modelId =>
  if modelId == "gpt-5.2" then some "OpenAI GPT-5.2"
  else if modelId == "claude-opus-4.6" then some "Claude Opus 4.6"
  else if modelId == "gemini-3" then some "Gemini 3"
  else none

/-- The argument record of a `generateStructuredOutput` call. -/
structure ProviderInput where
  systemPrompt : String
  userPrompt : String
  tools : List ToolDefinition
  outputSchema : JSONSchema

/-- The fallback schema `{ type: "object" }` used when the agent's
output-schema name has no `OUTPUT_SCHEMAS` entry. -/
def fallbackSchema : JSONSchema :=
  .mk "object" .none .none none none none none

/-- The record `runDiscussion` passes to the provider:
`{systemPrompt: config.instructions, userPrompt: request.input, tools:
permitted, outputSchema: OUTPUT_SCHEMAS[config.outputSchema] ||
fallback}`. -/
def discussionProviderInput (config : AgentConfig) (request : AgentRunRequest) : ProviderInput :=
  { systemPrompt := config.instructions
    userPrompt := request.input
    tools := getPermittedTools config.allowedTools config.permissions
    outputSchema := (OUTPUT_SCHEMAS.lookup config.outputSchema).getD fallbackSchema }

/-- The `for (const call of result.toolCalls)` classification loop of
`runDiscussion`: each proposed call is rejected (with a `blocked` log)
or approved (with a `tool_call` log) by `validateToolAccess`, in
proposal order.  Returns `(blockedCalls, approvedCalls, logs)`. -/
def classifyCalls (modelId agentName : String) (allowedTools permissions : List String) :
    List ToolCall → List ToolCall × List ToolCall × List LogEntry
  | [] => ([], [], [])
  | call :: rest =>
    let tail := classifyCalls modelId agentName allowedTools permissions rest
    match validateToolAccess call.toolName allowedTools permissions with
    | some blockReason =>
      ({ call with status := CallStatus.rejected } :: tail.1, tail.2.1,
       createLog Phase.discussion modelId agentName LogType.blocked blockReason :: tail.2.2)
    | none =>
      (tail.1, { call with status := CallStatus.approved } :: tail.2.1,
       createLog Phase.discussion modelId agentName LogType.tool_call
         ("Tool call approved: " ++ call.toolName) :: tail.2.2)

/-- `runDiscussion` of src/core/agent-runtime, parametrised by the
injected agent-configuration list (the source closes over the static
`AGENT_CONFIGS`; the spec's design notes require configs to be supplied
as data) and by the external provider capability, whose single awaited
response replaces the suspension point.  A thrown `Error` becomes
`Except.error` carrying the exact message; in the error case the local
`logs` array is unreachable by the caller, which the error constructor
reflects by carrying no logs and no partial result. -/
def runDiscussionWith (configs : List AgentConfig)
    (provider : ProviderInput → StructuredResult)
    (request : AgentRunRequest) : Except String AgentRunResult :=
  match configs.find? (fun c => c.name == request.agent) with
  | none => Except.error ("Unknown agent: " ++ request.agent)
  | some config =>
    let modelId := request.model.getD config.model
    match getProviderDisplayName modelId with
    | none =>
      Except.error ("Unknown model: " ++ modelId ++
        ". Supported: gpt-5.2, claude-opus-4.6, gemini-3")
    | some displayName =>
      let permittedTools := getPermittedTools config.allowedTools config.permissions
      let headLogs :=
        [ createLog Phase.discussion modelId config.name LogType.plan
            ("Starting discussion phase with " ++ displayName)
        , createLog Phase.discussion modelId config.name LogType.plan
            ("Permitted tools: [" ++
              String.intercalate ", " (permittedTools.map (fun t => t.name)) ++ "]") ]
      let result := provider (discussionProviderInput config request)
      let classified :=
        classifyCalls modelId config.name config.allowedTools config.permissions result.toolCalls
      let validated :=
        match OUTPUT_SCHEMAS.lookup config.outputSchema with
        | some schema =>
          let validation := validateAgainstSchema result.data schema
          (validation.valid,
           [ createLog Phase.discussion modelId config.name LogType.validation
               (if validation.valid then "✓ Output matches JSON schema"
                else "✗ Schema validation failed: " ++ String.intercalate "; " validation.errors) ])
        | none => (true, [])
      Except.ok
        { phase := Phase.discussion
          result := result
          logs := headLogs ++ classified.2.2 ++ validated.2 ++
            [ createLog Phase.discussion modelId config.name LogType.plan
                ("Discussion complete. " ++ toString classified.2.1.length ++
                  " approved, " ++ toString classified.1.length ++ " blocked.") ]
          validationPassed := validated.1
          blockedCalls := classified.1
          approvedCalls := classified.2.1 }

/-- The execution of one approved call: set `status = executed` and
attach the executor's `{success: true, message: ...}` result. -/
def executeCall (call : ToolCall) : ToolCall :=
  { call with
      status := CallStatus.executed
      result := some (JSValue.obj
        [ ("success", JSValue.bool true)
        , ("message", JSValue.str ("Executed " ++ call.toolName ++ " successfully")) ]) }

/-- `runExecution` of src/core/agent-runtime, parametrised by the
injected agent-configuration list.  Re-validates the discussion data
from scratch; on failure it returns the discussion result with only the
execution-phase logs and `validationPassed = false` (the source's early
return spreads `discussionResult` and overrides `logs`), otherwise it
executes every approved call in order and merges the logs. -/
def runExecutionWith (configs : List AgentConfig)
    (discussionResult : AgentRunResult)
    (request : AgentRunRequest) : Except String AgentRunResult :=
  match configs.find? (fun c => c.name == request.agent) with
  | none => Except.error ("Unknown agent: " ++ request.agent)
  | some config =>
    let modelId := request.model.getD config.model
    let headLogs :=
      [ createLog Phase.execution modelId config.name LogType.execution
          "User confirmed — entering execution phase" ]
    let validated :=
      match OUTPUT_SCHEMAS.lookup config.outputSchema with
      | some schema =>
        let validation := validateAgainstSchema discussionResult.result.data schema
        (validation.valid,
         headLogs ++
           [ createLog Phase.execution modelId config.name LogType.validation
               (if validation.valid then "✓ Re-validation passed"
                else "✗ Re-validation failed: " ++ String.intercalate "; " validation.errors) ])
      | none => (true, headLogs)
    if validated.1 then
      let executedCalls := discussionResult.approvedCalls.map executeCall
      let execLogs := executedCalls.map (fun call =>
        createLog Phase.execution modelId config.name LogType.execution
          ("Executed: " ++ call.toolName))
      Except.ok
        { phase := Phase.execution
          result := discussionResult.result
          logs := discussionResult.logs ++ validated.2 ++ execLogs ++
            [ createLog Phase.execution modelId config.name LogType.execution
                ("Execution complete. " ++ toString discussionResult.approvedCalls.length ++
                  " tool calls executed.") ]
          validationPassed := validated.1
          blockedCalls := discussionResult.blockedCalls
          approvedCalls := executedCalls }
    else
      Except.ok
        { discussionResult with
            phase := Phase.execution
            logs := validated.2 ++
              [ createLog Phase.execution modelId config.name LogType.error
                  "Execution aborted: output failed re-validation" ]
            validationPassed := false }

/-- `runDiscussion` as shipped: the static `AGENT_CONFIGS`. -/
def runDiscussion (provider : ProviderInput → StructuredResult)
    (request : AgentRunRequest) : Except String AgentRunResult :=
  runDiscussionWith AGENT_CONFIGS provider request

/-- `runExecution` as shipped: the static `AGENT_CONFIGS`. -/
def runExecution (discussionResult : AgentRunResult)
    (request : AgentRunRequest) : Except String AgentRunResult :=
  runExecutionWith AGENT_CONFIGS discussionResult request

/-- The declared properties of an optional `properties` map, as an
ordinary association list (empty when the keyword is absent). -/
def OptProps.toList : OptProps → List (String × JSONSchema)
  | .none => []
  | .some ps => ps.toList

/-- "A value constructed to satisfy a schema exactly", following the
spec's round-trip wording: all required fields present, every checked
field has the declared type (recursively), no undeclared properties
where `additionalProperties` is `false`, arrays element-wise conformant
to `items`, and every string constrained by an `enum` a member of it.
This is the spec-side description to be compared with the source-side
`validateAgainstSchema`. -/
inductive Conforms : JSValue → JSONSchema → Prop where
  | obj (fields : List (String × JSValue)) (props : OptProps) (itms : OptSchema)
        (req enm : Option (List String)) (dsc : Option String) (addl : Option Bool)
        (hreq : ∀ k ∈ req.getD [], hasKey fields k = true)
        (hprops : ∀ k psch v, (k, psch) ∈ props.toList →
          getKey fields k = some v → Conforms v psch)
        (haddl : addl = some false →
          ∀ kv ∈ fields, props.toList.any (fun p => p.1 == kv.1) = true) :
      Conforms (.obj fields) (.mk "object" props itms req enm dsc addl)
  | arr (elems : List JSValue) (props : OptProps) (itms : OptSchema)
        (req enm : Option (List String)) (dsc : Option String) (addl : Option Bool)
        (hitems : ∀ its, itms = OptSchema.some its → ∀ e ∈ elems, Conforms e its) :
      Conforms (.arr elems) (.mk "array" props itms req enm dsc addl)
  | str (sv : String) (props : OptProps) (itms : OptSchema)
        (req enm : Option (List String)) (dsc : Option String) (addl : Option Bool)
        (henum : ∀ e, enm = some e → sv ∈ e) :
      Conforms (.str sv) (.mk "string" props itms req enm dsc addl)
  | num (n : Int) (props : OptProps) (itms : OptSchema)
        (req enm : Option (List String)) (dsc : Option String) (addl : Option Bool) :
      Conforms (.num n) (.mk "number" props itms req enm dsc addl)
  | bool (b : Bool) (props : OptProps) (itms : OptSchema)
        (req enm : Option (List String)) (dsc : Option String) (addl : Option Bool) :
      Conforms (.bool b) (.mk "boolean" props itms req enm dsc addl)

/-! ### Unfolding lemmas for the mutual validator

The mutual structural recursion does not generate usable `simp`
equations, but each defining equation holds definitionally once the
schema's optional-field constructors are fixed, so every lemma below is
proved by case analysis plus `rfl`. -/

theorem validate_object_unfold (fields : List (String × JSValue)) (props : OptProps)
    (itms : OptSchema) (req enm : Option (List String)) (dsc : Option String)
    (addl : Option Bool) (path : String) :
    validate (JSValue.obj fields) (JSONSchema.mk "object" props itms req enm dsc addl) path =
      ((req.getD []).filter (fun k => !(hasKey fields k))).map
        (fun k => path ++ "." ++ k ++ ": required field missing")
      ++ (match props with
          | OptProps.none => []
          | OptProps.some ps => validateProps fields ps path)
      ++ (match addl, props with
          | some false, OptProps.some ps =>
            (fields.filter (fun kv => !(Props.declares ps kv.1))).map
              (fun kv => path ++ "." ++ kv.1 ++ ": unexpected property")
          | _, _ => []) := by
  cases props with
  | none =>
    cases addl with
    | none => rfl
    | some b => cases b with | false => rfl | true => rfl
  | some ps =>
    cases addl with
    | none => rfl
    | some b => cases b with | false => rfl | true => rfl

theorem validate_array_unfold (elems : List JSValue) (props : OptProps) (itms : OptSchema)
    (req enm : Option (List String)) (dsc : Option String) (addl : Option Bool) (path : String) :
    validate (JSValue.arr elems) (JSONSchema.mk "array" props itms req enm dsc addl) path =
      (match itms with
       | OptSchema.some its =>
         (elems.enum.map (fun p => validate p.2 its (path ++ "[" ++ toString p.1 ++ "]"))).flatten
       | OptSchema.none => []) := by
  cases itms with
  | none => rfl
  | some its => rfl

theorem validate_string_unfold (sv : String) (props : OptProps) (itms : OptSchema)
    (req enm : Option (List String)) (dsc : Option String) (addl : Option Bool) (path : String) :
    validate (JSValue.str sv) (JSONSchema.mk "string" props itms req enm dsc addl) path =
      (match enm with
       | some e =>
         if e.contains sv then []
         else [path ++ ": must be one of [" ++ String.intercalate ", " e ++ "]"]
       | none => []) := by
  cases enm <;> rfl

theorem validate_num_unfold (n : Int) (props : OptProps) (itms : OptSchema)
    (req enm : Option (List String)) (dsc : Option String) (addl : Option Bool) (path : String) :
    validate (JSValue.num n) (JSONSchema.mk "number" props itms req enm dsc addl) path = [] := rfl

theorem validate_bool_unfold (b : Bool) (props : OptProps) (itms : OptSchema)
    (req enm : Option (List String)) (dsc : Option String) (addl : Option Bool) (path : String) :
    validate (JSValue.bool b) (JSONSchema.mk "boolean" props itms req enm dsc addl) path = [] := rfl

theorem validateProps_cons_unfold (fields : List (String × JSValue)) (k : String)
    (psch : JSONSchema) (rest : Props) (path : String) :
    validateProps fields (Props.cons k psch rest) path =
      (match getKey fields k with
       | some v => validate v psch (path ++ "." ++ k)
       | none => []) ++ validateProps fields rest path := rfl

/-! ### Helper lemmas -/

theorem Props.declares_eq_any (ps : Props) (k : String) :
    ps.declares k = ps.toList.any (fun p => p.1 == k) := by
  match ps with
  | .nil => rfl
  | .cons key s rest =>
    show ((key == k) || rest.declares k) = _
    rw [Props.declares_eq_any rest k]
    rfl

theorem validateProps_eq_nil (fields : List (String × JSValue)) (ps : Props) (path : String)
    (h : ∀ k psch v, (k, psch) ∈ ps.toList → getKey fields k = some v →
      ∀ p, validate v psch p = []) :
    validateProps fields ps path = [] := by
  match ps with
  | .nil => rfl
  | .cons key psch rest =>
    rw [validateProps_cons_unfold]
    have htail : validateProps fields rest path = [] :=
      validateProps_eq_nil fields rest path
        (fun k s v hm hg p => h k s v (List.mem_cons_of_mem _ hm) hg p)
    cases hg : getKey fields key with
    | none => simp [hg, htail]
    | some v =>
      have hv := h key psch v (List.mem_cons_self _ _) hg (path ++ "." ++ key)
      simp [hg, htail, hv]

/-! ### Claims -/

/-- C3: `validateToolAccess` decides in fixed order with first match
winning: not allow-listed, then not in the registry, then missing
permissions (listing exactly the missing tokens), otherwise permitted
(`none`). -/
theorem validateToolAccess_decision_order
    (toolName : String) (allowedNames grantedPermissions : List String) :
    (toolName ∉ allowedNames →
      validateToolAccess toolName allowedNames grantedPermissions =
        some ("BLOCKED: Tool \"" ++ toolName ++
          "\" is not in the agent\x27s allowed tools list. This call has been rejected.")) ∧
    (toolName ∈ allowedNames →
      TOOL_REGISTRY.find? (fun t => t.name == toolName) = none →
      validateToolAccess toolName allowedNames grantedPermissions =
        some ("BLOCKED: Tool \"" ++ toolName ++ "\" does not exist in the registry.")) ∧
    (∀ tool, toolName ∈ allowedNames →
      TOOL_REGISTRY.find? (fun t => t.name == toolName) = some tool →
      tool.requiredPermissions.filter (fun p => !(grantedPermissions.contains p)) ≠ [] →
      validateToolAccess toolName allowedNames grantedPermissions =
        some ("BLOCKED: Agent lacks permissions: [" ++
          String.intercalate ", "
            (tool.requiredPermissions.filter (fun p => !(grantedPermissions.contains p))) ++
          "]. This call has been rejected.")) ∧
    (∀ tool, toolName ∈ allowedNames →
      TOOL_REGISTRY.find? (fun t => t.name == toolName) = some tool →
      (∀ p ∈ tool.requiredPermissions, p ∈ grantedPermissions) →
      validateToolAccess toolName allowedNames grantedPermissions = none) := by
  refine ⟨fun h1 => ?_, fun h1 h2 => ?_, fun tool h1 h2 h3 => ?_, fun tool h1 h2 h3 => ?_⟩
  · simp [validateToolAccess, h1]
  · simp [validateToolAccess, h1, h2]
  · have hex : ∃ x ∈ tool.requiredPermissions, x ∉ grantedPermissions := by
      obtain ⟨x, hx⟩ := List.exists_mem_of_ne_nil _ h3
      rw [List.mem_filter] at hx
      exact ⟨x, hx.1, by simpa using hx.2⟩
    simp [validateToolAccess, h1, h2, hex]
  · simp [validateToolAccess, h1, h2]
    exact h3

/-- C3 witness: all four decision branches exercised on concrete
inputs. -/
theorem validateToolAccess_decision_order_witness :
    validateToolAccess "readTask" [] [] =
      some ("BLOCKED: Tool \"readTask\" is not in the agent\x27s allowed tools list. This call has been rejected.") ∧
    validateToolAccess "dropDatabase" ["dropDatabase"] [] =
      some ("BLOCKED: Tool \"dropDatabase\" does not exist in the registry.") ∧
    validateToolAccess "updateTask" ["updateTask"] ["read:tasks"] =
      some ("BLOCKED: Agent lacks permissions: [" ++
        String.intercalate ", "
          ((TOOL_REGISTRY.find? (fun t : ToolDefinition => t.name == "updateTask")).getD
            { name := "", description := "", parameters := fallbackSchema,
              requiredPermissions := [] }).requiredPermissions ++
        "]. This call has been rejected.") ∧
    validateToolAccess "readTask" ["readTask"] ["read:tasks"] = none := by
  refine ⟨(validateToolAccess_decision_order "readTask" [] []).1 (by simp),
    (validateToolAccess_decision_order "dropDatabase" ["dropDatabase"] []).2.1 (by simp) rfl,
    ?_, ?_⟩
  · have h := (validateToolAccess_decision_order "updateTask" ["updateTask"] ["read:tasks"]).2.2.1
      (((TOOL_REGISTRY.find? (fun t : ToolDefinition => t.name == "updateTask")).getD
        { name := "", description := "", parameters := fallbackSchema,
          requiredPermissions := [] })) (by simp) (by rfl) (by decide)
    rw [h]
    rfl
  · exact (validateToolAccess_decision_order "readTask" ["readTask"] ["read:tasks"]).2.2.2
      (((TOOL_REGISTRY.find? (fun t : ToolDefinition => t.name == "readTask")).getD
        { name := "", description := "", parameters := fallbackSchema,
          requiredPermissions := [] })) (by simp) (by rfl) (by decide)

/-- C4 counterexample: for `deleteDatabase`, which has no registry
entry, the outcome does depend on the allow-list — with an empty
allow-list the not-allowlisted reason is returned, not the
not-in-registry reason, refuting independence from `allowedNames`. -/
theorem validateToolAccess_unregistered_counterexample :
    TOOL_REGISTRY.find? (fun t => t.name == "deleteDatabase") = none ∧
    validateToolAccess "deleteDatabase" [] [] =
      some ("BLOCKED: Tool \"deleteDatabase\" is not in the agent\x27s allowed tools list. This call has been rejected.") ∧
    validateToolAccess "deleteDatabase" ["deleteDatabase"] [] =
      some ("BLOCKED: Tool \"deleteDatabase\" does not exist in the registry.") ∧
    validateToolAccess "deleteDatabase" [] [] ≠
      validateToolAccess "deleteDatabase" ["deleteDatabase"] [] := by
  refine ⟨rfl, rfl, rfl, ?_⟩
  decide

/-- C4 (amended): for every `toolName` with no `TOOL_REGISTRY` entry
that passes the allow-list check, `validateToolAccess` returns the
not-in-registry block reason, independent of the granted permissions;
when the tool is not allow-listed, the allow-list check fires first. -/
theorem validateToolAccess_unregistered_allowlisted
    (toolName : String) (allowedNames grantedPermissions : List String)
    (hin : toolName ∈ allowedNames)
    (hreg : TOOL_REGISTRY.find? (fun t => t.name == toolName) = none) :
    validateToolAccess toolName allowedNames grantedPermissions =
      some ("BLOCKED: Tool \"" ++ toolName ++ "\" does not exist in the registry.") := by
  simp [validateToolAccess, hin, hreg]

/-- C4 witness: the amended theorem at a concrete unregistered tool,
under two different permission sets. -/
theorem validateToolAccess_unregistered_allowlisted_witness :
    validateToolAccess "executeRawSQL" ["executeRawSQL"] [] =
      some ("BLOCKED: Tool \"executeRawSQL\" does not exist in the registry.") ∧
    validateToolAccess "executeRawSQL" ["executeRawSQL"] ["read:tasks", "write:tasks"] =
      some ("BLOCKED: Tool \"executeRawSQL\" does not exist in the registry.") :=
  ⟨validateToolAccess_unregistered_allowlisted "executeRawSQL" ["executeRawSQL"] []
      (by simp) rfl,
   validateToolAccess_unregistered_allowlisted "executeRawSQL" ["executeRawSQL"]
      ["read:tasks", "write:tasks"] (by simp) rfl⟩

/-- C5: `getPermittedTools` returns exactly the registry entries whose
name is allow-listed and whose required permissions are all granted
(set equality via the membership characterisation), and the returned
sequence is a sublist of the registry, hence preserves registry order. -/
theorem getPermittedTools_exact (allowedNames grantedPermissions : List String) :
    (getPermittedTools allowedNames grantedPermissions).Sublist TOOL_REGISTRY ∧
    ∀ t, t ∈ getPermittedTools allowedNames grantedPermissions ↔
      (t ∈ TOOL_REGISTRY ∧ t.name ∈ allowedNames ∧
        ∀ p ∈ t.requiredPermissions, p ∈ grantedPermissions) := by
  constructor
  · exact List.filter_sublist TOOL_REGISTRY
  · intro t
    simp [getPermittedTools, List.mem_filter, and_assoc]

/-- C5 witness: the characterisation instantiated for the read-only
agent's configuration and the `updateTask` entry. -/
theorem getPermittedTools_exact_witness :
    (getPermittedTools ["readTask", "listTasks"] ["read:tasks"]).Sublist TOOL_REGISTRY ∧
    ((TOOL_REGISTRY.find? (fun t : ToolDefinition => t.name == "updateTask")).getD
        { name := "", description := "", parameters := fallbackSchema, requiredPermissions := [] } ∈
      getPermittedTools ["readTask", "listTasks"] ["read:tasks"] ↔
      ((TOOL_REGISTRY.find? (fun t : ToolDefinition => t.name == "updateTask")).getD
        { name := "", description := "", parameters := fallbackSchema, requiredPermissions := [] } ∈ TOOL_REGISTRY ∧
        "updateTask" ∈ ["readTask", "listTasks"] ∧
        ∀ p ∈ ["write:tasks"], p ∈ ["read:tasks"])) :=
  ⟨(getPermittedTools_exact ["readTask", "listTasks"] ["read:tasks"]).1,
   (getPermittedTools_exact ["readTask", "listTasks"] ["read:tasks"]).2 _⟩

/-- C6 (code bug evaluated): a schema node whose `type` is outside the
documented subset — here `"integer"` — is silently accepted:
`validateAgainstSchema` reports `valid = true` with no errors even for
a string value, because the validator's if/else chain has no fallback
branch.  The spec requires that unknown keywords must not be silently
accepted as passing. -/
theorem validateAgainstSchema_unsupported_type_accepts :
    validateAgainstSchema (JSValue.str "hello")
        (JSONSchema.mk "integer" .none .none none none none none) =
      { valid := true, errors := [] } ∧
    validateAgainstSchema JSValue.null
        (JSONSchema.mk "integer" .none .none none none none none) =
      { valid := true, errors := [] } :=
  ⟨rfl, rfl⟩

theorem validate_items_flatten_nil (its : JSONSchema) (path : String)
    (elems : List JSValue) (n : Nat)
    (h : ∀ e ∈ elems, ∀ p, validate e its p = []) :
    ((List.enumFrom n elems).map (fun p =>
      validate p.2 its (path ++ "[" ++ toString p.1 ++ "]"))).flatten = [] := by
  induction elems generalizing n with
  | nil => rfl
  | cons e rest ih =>
    have he := h e (by simp) (path ++ "[" ++ toString n ++ "]")
    have ht := ih (n + 1) (fun x hx p => h x (by simp [hx]) p)
    simp [List.enumFrom, he, ht]

/-- Soundness of the spec-side conformance description against the
source-side validator: a conformant value produces no errors at any
path. -/
theorem validate_eq_nil_of_conforms (v : JSValue) (s : JSONSchema) (h : Conforms v s) :
    ∀ path, validate v s path = [] := by
  induction h with
  | obj fields props itms req enm dsc addl hreq hprops haddl ihprops =>
    intro path
    rw [validate_object_unfold]
    have h1 : (req.getD []).filter (fun k => !(hasKey fields k)) = [] := by
      rw [List.filter_eq_nil_iff]
      intro a ha
      simp [hreq a ha]
    cases props with
    | none =>
      cases addl with
      | none => simp [h1]
      | some b => cases b with | true => simp [h1] | false => simp [h1]
    | some ps =>
      have h2 : validateProps fields ps path = [] :=
        validateProps_eq_nil fields ps path (fun k psch v hm hg p => ihprops k psch v hm hg p)
      cases addl with
      | none => simp [h1, h2]
      | some b =>
        cases b with
        | true => simp [h1, h2]
        | false =>
          have h3 : fields.filter (fun kv => !(Props.declares ps kv.1)) = [] := by
            rw [List.filter_eq_nil_iff]
            intro kv hkv
            have hd := haddl rfl kv hkv
            rw [Props.declares_eq_any]
            simpa using hd
          simp [h1, h2, h3]
  | arr elems props itms req enm dsc addl hitems ihitems =>
    intro path
    rw [validate_array_unfold]
    cases itms with
    | none => rfl
    | some its =>
      exact validate_items_flatten_nil its path elems 0
        (fun e he p => ihitems its rfl e he p)
  | str sv props itms req enm dsc addl henum =>
    intro path
    rw [validate_string_unfold]
    cases enm with
    | none => rfl
    | some e => simp [henum e rfl]
  | num n props itms req enm dsc addl =>
    intro path
    exact validate_num_unfold n props itms req enm dsc addl path
  | bool b props itms req enm dsc addl =>
    intro path
    exact validate_bool_unfold b props itms req enm dsc addl path

/-- C7: round-trip — every value that satisfies a supported-subset
schema exactly (all required fields present, declared types respected,
no undeclared properties where `additionalProperties` is `false`, enum
membership for constrained strings) validates with `valid = true` and
an empty error list. -/
theorem validateAgainstSchema_roundtrip (v : JSValue) (s : JSONSchema) (h : Conforms v s) :
    validateAgainstSchema v s = { valid := true, errors := [] } := by
  have hnil := validate_eq_nil_of_conforms v s h "$"
  simp [validateAgainstSchema, hnil]

/-- C7 witness: a concrete object value built to satisfy a concrete
object schema exactly (required key present, enum respected, only
declared keys, `additionalProperties = false`). -/
theorem validateAgainstSchema_roundtrip_witness :
    validateAgainstSchema
        (JSValue.obj [("a", JSValue.str "x"), ("b", JSValue.num 3)])
        (JSONSchema.mk "object"
          (OptProps.some (Props.ofList
            [ ("a", JSONSchema.mk "string" .none .none none (some ["x", "y"]) none none)
            , ("b", JSONSchema.mk "number" .none .none none none none none) ]))
          .none (some ["a"]) none none (some false)) =
      { valid := true, errors := [] } := by
  refine validateAgainstSchema_roundtrip _ _
    (Conforms.obj _ _ _ _ _ _ _ (by decide) ?_ (fun _ => by decide))
  intro k psch v hm hg
  have hm2 : (k, psch) ∈
      [ ("a", JSONSchema.mk "string" OptProps.none OptSchema.none none (some ["x", "y"]) none none)
      , ("b", JSONSchema.mk "number" OptProps.none OptSchema.none none none none none) ] := hm
  rcases List.mem_cons.1 hm2 with hp | hp2
  · have hk : k = "a" := congrArg Prod.fst hp
    have hs : psch = JSONSchema.mk "string" OptProps.none OptSchema.none none (some ["x", "y"]) none none :=
      congrArg Prod.snd hp
    subst hk
    subst hs
    have hv : some (JSValue.str "x") = some v := hg
    cases Option.some.inj hv
    exact Conforms.str _ _ _ _ _ _ _ (fun e he => by cases he; decide)
  · rcases List.mem_cons.1 hp2 with hp | habs
    · have hk : k = "b" := congrArg Prod.fst hp
      have hs : psch = JSONSchema.mk "number" OptProps.none OptSchema.none none none none none :=
        congrArg Prod.snd hp
      subst hk
      subst hs
      have hv : some (JSValue.num 3) = some v := hg
      cases Option.some.inj hv
      exact Conforms.num _ _ _ _ _ _ _
    · exact absurd habs (by simp)

/-- C10: when a schema node has `additionalProperties = false` but no
`properties` map, the extra-key scan does not run: `validate` emits
only required-field errors for that node and no "unexpected property"
error, whatever keys the object value carries. -/
theorem validate_no_extra_key_scan_without_properties
    (fields : List (String × JSValue)) (itms : OptSchema)
    (req enm : Option (List String)) (dsc : Option String) (path : String) :
    validate (JSValue.obj fields)
        (JSONSchema.mk "object" OptProps.none itms req enm dsc (some false)) path =
      ((req.getD []).filter (fun k => !(hasKey fields k))).map
        (fun k => path ++ "." ++ k ++ ": required field missing") := by
  rw [validate_object_unfold]
  simp

/-! ### Orchestrator lemmas -/

theorem classifyCalls_approved_mem (m a : String) (alw perms : List String)
    (calls : List ToolCall) :
    ∀ c ∈ (classifyCalls m a alw perms calls).2.1,
      c.status = CallStatus.approved ∧
      ∃ c0 ∈ calls, c = { c0 with status := CallStatus.approved } ∧
        validateToolAccess c0.toolName alw perms = none := by
  induction calls with
  | nil => intro c hc; simp [classifyCalls] at hc
  | cons call rest ih =>
    intro c hc
    cases hv : validateToolAccess call.toolName alw perms with
    | some reason =>
      simp only [classifyCalls, hv] at hc
      obtain ⟨hs, c0, hm, he⟩ := ih c hc
      exact ⟨hs, c0, List.mem_cons_of_mem _ hm, he⟩
    | none =>
      simp only [classifyCalls, hv, List.mem_cons] at hc
      rcases hc with hc | hc
      · subst hc
        exact ⟨rfl, call, List.mem_cons_self _ _, rfl, hv⟩
      · obtain ⟨hs, c0, hm, he⟩ := ih c hc
        exact ⟨hs, c0, List.mem_cons_of_mem _ hm, he⟩

theorem classifyCalls_blocked_mem (m a : String) (alw perms : List String)
    (calls : List ToolCall) :
    ∀ c ∈ (classifyCalls m a alw perms calls).1,
      c.status = CallStatus.rejected ∧
      ∃ c0 ∈ calls, c = { c0 with status := CallStatus.rejected } := by
  induction calls with
  | nil => intro c hc; simp [classifyCalls] at hc
  | cons call rest ih =>
    intro c hc
    cases hv : validateToolAccess call.toolName alw perms with
    | some reason =>
      simp only [classifyCalls, hv, List.mem_cons] at hc
      rcases hc with hc | hc
      · subst hc
        exact ⟨rfl, call, List.mem_cons_self _ _, rfl⟩
      · obtain ⟨hs, c0, hm, he⟩ := ih c hc
        exact ⟨hs, c0, List.mem_cons_of_mem _ hm, he⟩
    | none =>
      simp only [classifyCalls, hv] at hc
      obtain ⟨hs, c0, hm, he⟩ := ih c hc
      exact ⟨hs, c0, List.mem_cons_of_mem _ hm, he⟩

theorem classifyCalls_covers (m a : String) (alw perms : List String)
    (calls : List ToolCall) :
    ∀ c0 ∈ calls,
      { c0 with status := CallStatus.approved } ∈ (classifyCalls m a alw perms calls).2.1 ∨
      { c0 with status := CallStatus.rejected } ∈ (classifyCalls m a alw perms calls).1 := by
  induction calls with
  | nil => intro c0 hc; simp at hc
  | cons call rest ih =>
    intro c0 hc
    rcases List.mem_cons.1 hc with hc | hc
    · subst hc
      cases hv : validateToolAccess c0.toolName alw perms with
      | some reason => right; simp [classifyCalls, hv]
      | none => left; simp [classifyCalls, hv]
    · cases hv : validateToolAccess call.toolName alw perms with
      | some reason =>
        rcases ih c0 hc with h | h
        · left; simpa [classifyCalls, hv] using h
        · right; simp [classifyCalls, hv]; right; exact h
      | none =>
        rcases ih c0 hc with h | h
        · left; simp [classifyCalls, hv]; right; exact h
        · right; simpa [classifyCalls, hv] using h

theorem classifyCalls_length (m a : String) (alw perms : List String)
    (calls : List ToolCall) :
    (classifyCalls m a alw perms calls).1.length +
      (classifyCalls m a alw perms calls).2.1.length = calls.length := by
  induction calls with
  | nil => rfl
  | cons call rest ih =>
    cases hv : validateToolAccess call.toolName alw perms with
    | some reason => simp [classifyCalls, hv]; omega
    | none => simp [classifyCalls, hv]; omega

theorem classifyCalls_log_types (m a : String) (alw perms : List String)
    (calls : List ToolCall) :
    ∀ l ∈ (classifyCalls m a alw perms calls).2.2,
      l.type = LogType.blocked ∨ l.type = LogType.tool_call := by
  induction calls with
  | nil => intro l hl; simp [classifyCalls] at hl
  | cons call rest ih =>
    intro l hl
    cases hv : validateToolAccess call.toolName alw perms with
    | some reason =>
      simp only [classifyCalls, hv, List.mem_cons] at hl
      rcases hl with hl | hl
      · subst hl; left; rfl
      · exact ih l hl
    | none =>
      simp only [classifyCalls, hv, List.mem_cons] at hl
      rcases hl with hl | hl
      · subst hl; right; rfl
      · exact ih l hl

/-- Inversion of a successful discussion run: the returned result is
the provider's response, and the blocked/approved lists are the
classification of its proposed calls. -/
theorem runDiscussionWith_ok_inv (configs : List AgentConfig)
    (provider : ProviderInput → StructuredResult) (request : AgentRunRequest)
    (d : AgentRunResult) (config : AgentConfig)
    (hc : configs.find? (fun c => c.name == request.agent) = some config)
    (hd : runDiscussionWith configs provider request = Except.ok d) :
    d.result = provider (discussionProviderInput config request) ∧
    d.blockedCalls = (classifyCalls (request.model.getD config.model) config.name
      config.allowedTools config.permissions
      (provider (discussionProviderInput config request)).toolCalls).1 ∧
    d.approvedCalls = (classifyCalls (request.model.getD config.model) config.name
      config.allowedTools config.permissions
      (provider (discussionProviderInput config request)).toolCalls).2.1 := by
  unfold runDiscussionWith at hd
  simp only [hc] at hd
  cases hdp : getProviderDisplayName (request.model.getD config.model) with
  | none =>
    simp only [hdp] at hd
    exact absurd hd (by simp)
  | some dn =>
    simp only [hdp] at hd
    cases hls : OUTPUT_SCHEMAS.lookup config.outputSchema with
    | none =>
      simp only [hls, Except.ok.injEq] at hd
      subst hd
      exact ⟨rfl, rfl, rfl⟩
    | some schema =>
      simp only [hls, Except.ok.injEq] at hd
      subst hd
      exact ⟨rfl, rfl, rfl⟩

/-- Inversion of a successful execution run: blocked calls pass
through unchanged, and the approved list is either untouched
(re-validation failed) or the executed mapping of the discussion's
approved list. -/
theorem runExecutionWith_ok_inv (configs : List AgentConfig)
    (discussionResult : AgentRunResult) (request : AgentRunRequest)
    (r : AgentRunResult) (config : AgentConfig)
    (hc : configs.find? (fun c => c.name == request.agent) = some config)
    (hr : runExecutionWith configs discussionResult request = Except.ok r) :
    r.blockedCalls = discussionResult.blockedCalls ∧
    (r.approvedCalls = discussionResult.approvedCalls ∨
      r.approvedCalls = discussionResult.approvedCalls.map executeCall) := by
  unfold runExecutionWith at hr
  simp only [hc] at hr
  cases hls : OUTPUT_SCHEMAS.lookup config.outputSchema with
  | none =>
    simp only [hls, if_true, Except.ok.injEq] at hr
    subst hr
    exact ⟨rfl, Or.inr rfl⟩
  | some schema =>
    cases hvv : (validateAgainstSchema discussionResult.result.data schema).valid with
    | true =>
      simp only [hls, hvv, if_true, Except.ok.injEq] at hr
      subst hr
      exact ⟨rfl, Or.inr rfl⟩
    | false =>
      simp only [hls, hvv, Bool.false_eq_true, if_false, Except.ok.injEq] at hr
      subst hr
      exact ⟨rfl, Or.inl rfl⟩

/-- C8: a run request whose agent name matches no `AgentConfig`, or
whose effective model id has no registered provider, makes
`runDiscussion` fail immediately with a thrown error: the result is the
bare error message — no log entry, no partial `DiscussionResult`, no
classified tool call is ever produced. -/
theorem runDiscussion_config_error
    (provider : ProviderInput → StructuredResult) (request : AgentRunRequest)
    (h : AGENT_CONFIGS.find? (fun c => c.name == request.agent) = none ∨
      ∃ config, AGENT_CONFIGS.find? (fun c => c.name == request.agent) = some config ∧
        getProviderDisplayName (request.model.getD config.model) = none) :
    ∃ msg, runDiscussion provider request = Except.error msg := by
  unfold runDiscussion runDiscussionWith
  rcases h with h | ⟨config, hc, hm⟩
  · rw [h]
    exact ⟨_, rfl⟩
  · simp only [hc, hm]
    exact ⟨_, rfl⟩

/-- A minimal provider stub used by the concrete witnesses. -/
def trivialProvider : ProviderInput → StructuredResult := fun _ =>
  { success := true, data := JSValue.obj [], toolCalls := [], reasoning := none, rawOutput := none }

/-- C8 witness: an unknown agent name, and a known agent with an
unregistered model override, both fail. -/
theorem runDiscussion_config_error_witness :
    (∃ msg, runDiscussion trivialProvider
      { agent := "ghost-agent", model := none, input := "hi" } = Except.error msg) ∧
    (∃ msg, runDiscussion trivialProvider
      { agent := "workflow-agent", model := some "gpt-2", input := "hi" } = Except.error msg) :=
  ⟨runDiscussion_config_error _ _ (Or.inl rfl),
   runDiscussion_config_error _ _ (Or.inr ⟨_, rfl, rfl⟩)⟩

/-- C2: the `ToolCall` status state machine.  `runDiscussion` moves
each proposed call to exactly one of `approved` (when
`validateToolAccess` permits it) or `rejected`; `runExecution` leaves
blocked calls untouched and marks `executed` only images of calls from
`approvedCalls`; a `rejected` call is never executed. -/
theorem toolCall_status_state_machine
    (provider : ProviderInput → StructuredResult) (request : AgentRunRequest)
    (d r : AgentRunResult) (config : AgentConfig)
    (hc : AGENT_CONFIGS.find? (fun c => c.name == request.agent) = some config)
    (hd : runDiscussion provider request = Except.ok d)
    (hr : runExecution d request = Except.ok r) :
    (∀ c ∈ d.approvedCalls, c.status = CallStatus.approved ∧
      validateToolAccess c.toolName config.allowedTools config.permissions = none) ∧
    (∀ c ∈ d.blockedCalls, c.status = CallStatus.rejected) ∧
    (∀ c0 ∈ d.result.toolCalls,
      { c0 with status := CallStatus.approved } ∈ d.approvedCalls ∨
      { c0 with status := CallStatus.rejected } ∈ d.blockedCalls) ∧
    d.blockedCalls.length + d.approvedCalls.length = d.result.toolCalls.length ∧
    r.blockedCalls = d.blockedCalls ∧
    (∀ c ∈ r.approvedCalls, c.status = CallStatus.executed →
      ∃ c0 ∈ d.approvedCalls, c = executeCall c0) ∧
    (∀ c ∈ r.blockedCalls, c.status ≠ CallStatus.executed) := by
  obtain ⟨hres, hblk, happ⟩ :=
    runDiscussionWith_ok_inv AGENT_CONFIGS provider request d config hc hd
  obtain ⟨hrblk, hrapp⟩ :=
    runExecutionWith_ok_inv AGENT_CONFIGS d request r config hc hr
  refine ⟨?_, ?_, ?_, ?_, hrblk, ?_, ?_⟩
  · intro c hcm
    rw [happ] at hcm
    obtain ⟨hstat, c0, hm0, heqc, hva⟩ := classifyCalls_approved_mem _ _ _ _ _ c hcm
    refine ⟨hstat, ?_⟩
    have hname : c.toolName = c0.toolName := by rw [heqc]
    rw [hname]
    exact hva
  · intro c hcm
    rw [hblk] at hcm
    exact (classifyCalls_blocked_mem _ _ _ _ _ c hcm).1
  · intro c0 hcm
    rw [hres] at hcm
    rw [happ, hblk]
    exact classifyCalls_covers _ _ _ _ _ c0 hcm
  · rw [happ, hblk, hres]
    exact classifyCalls_length _ _ _ _ _
  · intro c hcm hcs
    rcases hrapp with hra | hra
    · rw [hra, happ] at hcm
      have hstat := (classifyCalls_approved_mem _ _ _ _ _ c hcm).1
      rw [hstat] at hcs
      exact absurd hcs (by decide)
    · rw [hra] at hcm
      obtain ⟨c0, hm0, heqc⟩ := List.mem_map.1 hcm
      exact ⟨c0, hm0, heqc.symm⟩
  · intro c hcm
    rw [hrblk, hblk] at hcm
    have hstat := (classifyCalls_blocked_mem _ _ _ _ _ c hcm).1
    rw [hstat]
    decide

/-- A placeholder result used only for the impossible error branches of
the witness constructions below. -/
def emptyRunResult : AgentRunResult :=
  { phase := Phase.discussion
    result := { success := false, data := JSValue.null, toolCalls := [],
                reasoning := none, rawOutput := none }
    logs := []
    validationPassed := false
    blockedCalls := []
    approvedCalls := [] }

/-- The workflow agent's configuration, as resolved by the runtime. -/
def wfConfig : AgentConfig :=
  (AGENT_CONFIGS.find? (fun c => c.name == "workflow-agent")).getD
    { name := "", model := "", instructions := "", allowedTools := [],
      outputSchema := "", permissions := [] }

/-- A provider stub proposing one legitimate call and one hallucinated
call, with schema-conformant data (mirrors the source's mock). -/
def stateMachineProvider : ProviderInput → StructuredResult := fun _ =>
  { success := true
    data := JSValue.obj [("workflow", JSValue.obj
      [ ("name", JSValue.str "Overdue Task Handler")
      , ("trigger", JSValue.str "task.overdue")
      , ("steps", JSValue.arr []) ])]
    toolCalls :=
      [ { toolName := "listTasks", arguments := JSValue.obj [], result := none,
          status := CallStatus.pending }
      , { toolName := "deleteDatabase", arguments := JSValue.obj [("target", JSValue.str "all")],
          result := none, status := CallStatus.pending } ]
    reasoning := none
    rawOutput := none }

/-- The witness run request: the workflow agent with its default model. -/
def stateMachineRequest : AgentRunRequest :=
  { agent := "workflow-agent", model := none, input := "hi" }

/-- The discussion outcome of the witness run. -/
def discussionOutcome : AgentRunResult :=
  match runDiscussion stateMachineProvider stateMachineRequest with
  | Except.ok d => d
  | Except.error _ => emptyRunResult

/-- The execution outcome of the witness run. -/
def executionOutcome : AgentRunResult :=
  match runExecution discussionOutcome stateMachineRequest with
  | Except.ok r => r
  | Except.error _ => emptyRunResult

/-- C2 witness: the state machine on a concrete two-call run (one call
approved and executed, one hallucinated call rejected). -/
theorem toolCall_status_state_machine_witness :
    (∀ c ∈ discussionOutcome.approvedCalls, c.status = CallStatus.approved ∧
      validateToolAccess c.toolName wfConfig.allowedTools wfConfig.permissions = none) ∧
    (∀ c ∈ discussionOutcome.blockedCalls, c.status = CallStatus.rejected) ∧
    (∀ c0 ∈ discussionOutcome.result.toolCalls,
      { c0 with status := CallStatus.approved } ∈ discussionOutcome.approvedCalls ∨
      { c0 with status := CallStatus.rejected } ∈ discussionOutcome.blockedCalls) ∧
    discussionOutcome.blockedCalls.length + discussionOutcome.approvedCalls.length =
      discussionOutcome.result.toolCalls.length ∧
    executionOutcome.blockedCalls = discussionOutcome.blockedCalls ∧
    (∀ c ∈ executionOutcome.approvedCalls, c.status = CallStatus.executed →
      ∃ c0 ∈ discussionOutcome.approvedCalls, c = executeCall c0) ∧
    (∀ c ∈ executionOutcome.blockedCalls, c.status ≠ CallStatus.executed) :=
  toolCall_status_state_machine stateMachineProvider stateMachineRequest
    discussionOutcome executionOutcome wfConfig rfl rfl rfl

/-- C1: if the Execution-phase re-validation of the discussion data
fails, `runExecution` returns `validationPassed = false`, the approved
calls pass through untouched (still `approved`, no result attached —
zero tool executions), and exactly one `error`-type entry appears in
the execution logs. -/
theorem runExecution_revalidation_failure
    (discussionResult : AgentRunResult) (request : AgentRunRequest)
    (config : AgentConfig) (schema : JSONSchema)
    (hc : AGENT_CONFIGS.find? (fun c => c.name == request.agent) = some config)
    (hs : OUTPUT_SCHEMAS.lookup config.outputSchema = some schema)
    (hv : (validateAgainstSchema discussionResult.result.data schema).valid = false)
    (ha : ∀ c ∈ discussionResult.approvedCalls,
      c.status = CallStatus.approved ∧ c.result = none) :
    ∃ r, runExecution discussionResult request = Except.ok r ∧
      r.validationPassed = false ∧
      r.approvedCalls = discussionResult.approvedCalls ∧
      r.blockedCalls = discussionResult.blockedCalls ∧
      (∀ c ∈ r.approvedCalls, c.status = CallStatus.approved ∧ c.result = none) ∧
      r.logs.countP (fun l => l.type == LogType.error) = 1 := by
  unfold runExecution runExecutionWith
  simp only [hc, hs, hv, Bool.false_eq_true, if_false]
  refine ⟨_, rfl, rfl, rfl, rfl, ha, ?_⟩
  simp [createLog, List.countP_append, List.countP_cons,
    show (LogType.error == LogType.error) = true from rfl,
    show (LogType.validation == LogType.error) = false from rfl,
    show (LogType.execution == LogType.error) = false from rfl]

/-- A discussion result carrying two approved calls whose data fails
the workflow schema (Scenario D). -/
def failedDiscussion : AgentRunResult :=
  { phase := Phase.discussion
    result := { success := true, data := JSValue.obj [], toolCalls := [],
                reasoning := none, rawOutput := none }
    logs := []
    validationPassed := true
    blockedCalls := []
    approvedCalls :=
      [ { toolName := "listTasks", arguments := JSValue.obj [], result := none,
          status := CallStatus.approved }
      , { toolName := "createWorkflow", arguments := JSValue.obj [], result := none,
          status := CallStatus.approved } ] }

/-- C1 witness: two approved calls, re-validation fails on empty data —
both stay `approved`, no result attached, one `error` log entry. -/
theorem runExecution_revalidation_failure_witness :
    ∃ r, runExecution failedDiscussion stateMachineRequest = Except.ok r ∧
      r.validationPassed = false ∧
      r.approvedCalls = failedDiscussion.approvedCalls ∧
      r.blockedCalls = failedDiscussion.blockedCalls ∧
      (∀ c ∈ r.approvedCalls, c.status = CallStatus.approved ∧ c.result = none) ∧
      r.logs.countP (fun l => l.type == LogType.error) = 1 :=
  runExecution_revalidation_failure failedDiscussion stateMachineRequest wfConfig
    ((OUTPUT_SCHEMAS.lookup "WorkflowDefinition").getD fallbackSchema) rfl rfl rfl
    (by
      intro c hcm
      simp only [failedDiscussion, List.mem_cons, List.not_mem_nil, or_false] at hcm
      rcases hcm with hcm | hcm <;> subst hcm <;> exact ⟨rfl, rfl⟩)

/-- C9: when the agent's output-schema name has no `OUTPUT_SCHEMAS`
entry, the provider is invoked with the fallback schema
`{ type: "object" }`, the Discussion phase skips schema validation
entirely (no `validation` log entry, `validationPassed = true`), and
the Execution phase proceeds with no validation gate, executing every
approved call. -/
theorem unknown_output_schema_skips_validation
    (configs : List AgentConfig) (provider : ProviderInput → StructuredResult)
    (request : AgentRunRequest) (config : AgentConfig) (dn : String)
    (hc : configs.find? (fun c => c.name == request.agent) = some config)
    (hs : OUTPUT_SCHEMAS.lookup config.outputSchema = none)
    (hp : getProviderDisplayName (request.model.getD config.model) = some dn) :
    (discussionProviderInput config request).outputSchema = fallbackSchema ∧
    ∃ d, runDiscussionWith configs provider request = Except.ok d ∧
      d.validationPassed = true ∧
      d.logs.countP (fun l => l.type == LogType.validation) = 0 ∧
      ∃ r, runExecutionWith configs d request = Except.ok r ∧
        r.validationPassed = true ∧
        r.approvedCalls = d.approvedCalls.map executeCall ∧
        (∀ c ∈ r.approvedCalls, c.status = CallStatus.executed) ∧
        r.logs.countP (fun l => l.type == LogType.validation) = 0 := by
  have hcl : ∀ calls, ((classifyCalls (request.model.getD config.model) config.name
      config.allowedTools config.permissions calls).2.2).countP
        (fun l => l.type == LogType.validation) = 0 := by
    intro calls
    rw [List.countP_eq_zero]
    intro l hl
    rcases classifyCalls_log_types _ _ _ _ calls l hl with h | h <;> rw [h] <;> decide
  constructor
  · simp [discussionProviderInput, hs]
  · unfold runDiscussionWith
    simp only [hc, hp, hs]
    refine ⟨_, rfl, rfl, ?_, ?_⟩
    · simp [createLog, List.countP_append, List.countP_cons, hcl,
        show (LogType.plan == LogType.validation) = false from rfl]
    · unfold runExecutionWith
      simp only [hc, hs, if_true]
      refine ⟨_, rfl, rfl, rfl, ?_, ?_⟩
      · intro c hcm
        obtain ⟨c0, hm0, heqc⟩ := List.mem_map.1 hcm
        rw [← heqc]
        rfl
      · simp [createLog, List.countP_append, List.countP_cons, List.countP_map, hcl,
          show (LogType.plan == LogType.validation) = false from rfl,
          show (LogType.execution == LogType.validation) = false from rfl]

/-- A one-agent configuration whose output-schema name is not in
`OUTPUT_SCHEMAS`. -/
def soloConfig : AgentConfig :=
  { name := "solo-agent", model := "gpt-5.2", instructions := "list tasks"
    allowedTools := ["listTasks"], outputSchema := "NoSuchSchema"
    permissions := ["read:tasks"] }

/-- A provider stub for the unknown-schema witness: one permitted call. -/
def soloProvider : ProviderInput → StructuredResult := fun _ =>
  { success := true
    data := JSValue.obj [("anything", JSValue.num 1)]
    toolCalls := [ { toolName := "listTasks", arguments := JSValue.obj [], result := none,
                     status := CallStatus.pending } ]
    reasoning := none
    rawOutput := none }

/-- C9 witness: the unknown-schema path on a concrete one-call run. -/
theorem unknown_output_schema_skips_validation_witness :
    (discussionProviderInput soloConfig
      { agent := "solo-agent", model := none, input := "go" }).outputSchema = fallbackSchema ∧
    ∃ d, runDiscussionWith [soloConfig] soloProvider
        { agent := "solo-agent", model := none, input := "go" } = Except.ok d ∧
      d.validationPassed = true ∧
      d.logs.countP (fun l => l.type == LogType.validation) = 0 ∧
      ∃ r, runExecutionWith [soloConfig] d
          { agent := "solo-agent", model := none, input := "go" } = Except.ok r ∧
        r.validationPassed = true ∧
        r.approvedCalls = d.approvedCalls.map executeCall ∧
        (∀ c ∈ r.approvedCalls, c.status = CallStatus.executed) ∧
        r.logs.countP (fun l => l.type == LogType.validation) = 0 :=
  unknown_output_schema_skips_validation [soloConfig] soloProvider
    { agent := "solo-agent", model := none, input := "go" } soloConfig
    "OpenAI GPT-5.2" rfl rfl rfl

end Onebeam
